import Mathlib

/-!
Shallow embedding of the ecoTracker backend's carbon-calculation and
insight core (src/models/Activity.js, src/routes/insights.js, and the
activities routes), over exact rational arithmetic.  JavaScript numbers
are IEEE doubles; all constants and inputs considered here are small
decimal literals for which the JS computations agree with exact rational
arithmetic, so quantities are modelled as `ℚ`.
-/

namespace EcoTracker

/-- JS `Math.round x`: nearest integer, ties toward positive infinity. -/
def jsRound (x : ℚ) : ℤ := ⌊x + 1/2⌋

/-- Rounding to `d` decimal places as done in the source via
`Math.round(x * 100) / 100` and via `parseFloat(x.toFixed(d))`
(both round ties toward positive infinity). -/
def jsRoundTo (d : ℕ) (x : ℚ) : ℚ := (jsRound (x * 10 ^ d) : ℚ) / 10 ^ d

/-- JS `x || d` where `x` is a possibly-undefined numeric lookup result:
`undefined` and `0` are falsy, every other number is truthy. -/
def jsOrNum (x : Option ℚ) (d : ℚ) : ℚ :=
  match x with
  | some v => if v = 0 then d else v
  | none => d

/-- JS `x || d` where `x` is a possibly-undefined string:
`undefined` and the empty string are falsy. -/
def jsOrStr (x : Option String) (d : String) : String :=
  match x with
  | some s => if s = "" then d else s
  | none => d

/-- `quantity` subdocument of an Activity (models/Activity.js). -/
structure Quantity where
  value : ℚ
  unit : String
deriving DecidableEq

/-- `activityDetails` subdocument of an Activity (models/Activity.js);
every field is optional. -/
structure ActivityDetails where
  transportMode : Option String
  fuelEfficiency : Option ℚ
  energySource : Option String
  foodType : Option String
  wasteType : Option String
  disposalMethod : Option String
deriving DecidableEq

/-- An empty `activityDetails` object (the routes substitute `{}` when the
request carries no details). -/
def noDetails : ActivityDetails := ⟨none, none, none, none, none, none⟩

/-- Details carrying only a `transportMode`. -/
def transportDetails (m : String) : ActivityDetails :=
  ⟨some m, none, none, none, none, none⟩

/-- Details carrying only a `foodType`. -/
def foodDetails (t : String) : ActivityDetails :=
  ⟨none, none, none, some t, none, none⟩

/-- Details carrying only a `wasteType`. -/
def wasteDetails (t : String) : ActivityDetails :=
  ⟨none, none, none, none, some t, none⟩

/-- Result shape of the calculation methods:
`{ carbonFootprint, emissionFactor }`. -/
structure EmissionResult where
  carbonFootprint : ℚ
  emissionFactor : ℚ
deriving DecidableEq

/-- The `transportEmissions` table (kg CO2 per km), models/Activity.js. -/
def transportEmissionsTable (mode : String) : Option ℚ :=
  if mode = "car_gasoline" then some 0.21
  else if mode = "car_diesel" then some 0.17
  else if mode = "car_electric" then some 0.05
  else if mode = "car_hybrid" then some 0.12
  else if mode = "bus" then some 0.08
  else if mode = "train" then some 0.04
  else if mode = "plane_domestic" then some 0.25
  else if mode = "plane_international" then some 0.30
  else if mode = "motorcycle" then some 0.15
  else if mode = "bicycle" then some 0
  else if mode = "walking" then some 0
  else none

/-- The `energyEmissions` table (kg CO2 per kWh), models/Activity.js. -/
def energyEmissionsTable (source : String) : Option ℚ :=
  if source = "coal" then some 0.82
  else if source = "natural_gas" then some 0.49
  else if source = "solar" then some 0.05
  else if source = "wind" then some 0.02
  else if source = "hydro" then some 0.03
  else if source = "nuclear" then some 0.06
  else if source = "grid_average" then some 0.45
  else none

/-- The `foodEmissions` table (kg CO2 per kg), models/Activity.js. -/
def foodEmissionsTable (t : String) : Option ℚ :=
  if t = "beef" then some 27.0
  else if t = "pork" then some 12.1
  else if t = "chicken" then some 6.9
  else if t = "fish" then some 6.1
  else if t = "dairy_milk" then some 3.2
  else if t = "dairy_cheese" then some 13.5
  else if t = "vegetables" then some 2.0
  else if t = "fruits" then some 1.1
  else if t = "grains" then some 1.4
  else if t = "processed_food" then some 3.5
  else none

/-- The `wasteEmissions.general_waste` sub-table keyed by disposal method,
models/Activity.js. -/
def generalWasteTable (method : String) : Option ℚ :=
  if method = "landfill" then some 0.5
  else if method = "incineration" then some 0.3
  else none

/-- The non-`general_waste` entries of the `wasteEmissions` table,
models/Activity.js (recycling is negative: it saves emissions). -/
def wasteEmissionsTable (t : String) : Option ℚ :=
  if t = "recycling" then some (-0.1)
  else if t = "compost" then some 0.1
  else if t = "hazardous" then some 2.0
  else none

/-- Distance conversion in `calculateTransportEmissions`: miles and m are
converted to km, any other unit passes through unchanged. -/
def transportDistanceKm (q : Quantity) : ℚ :=
  if q.unit = "miles" then q.value * 1.60934
  else if q.unit = "m" then q.value / 1000
  else q.value

/-- Emission-factor selection in `calculateTransportEmissions`:
`transportEmissions[activityDetails?.transportMode] || 0.21`. -/
def transportEmissionFactor (d : ActivityDetails) : ℚ :=
  jsOrNum (d.transportMode.bind transportEmissionsTable) 0.21

/-- `calculateTransportEmissions` (models/Activity.js lines 163-194). -/
def calculateTransportEmissions (q : Quantity) (d : ActivityDetails) :
    EmissionResult :=
  let f := transportEmissionFactor d
  ⟨transportDistanceKm q * f, f⟩

/-- Energy conversion in `calculateEnergyEmissions`: MWh and BTU are
converted to kWh, any other unit passes through unchanged. -/
def energyKWh (q : Quantity) : ℚ :=
  if q.unit = "MWh" then q.value * 1000
  else if q.unit = "BTU" then q.value * 0.000293071
  else q.value

/-- Emission-factor selection in `calculateEnergyEmissions`:
`energyEmissions[activityDetails?.energySource] || 0.45`. -/
def energyEmissionFactor (d : ActivityDetails) : ℚ :=
  jsOrNum (d.energySource.bind energyEmissionsTable) 0.45

/-- `calculateEnergyEmissions` (models/Activity.js lines 197-224). -/
def calculateEnergyEmissions (q : Quantity) (d : ActivityDetails) :
    EmissionResult :=
  let f := energyEmissionFactor d
  ⟨energyKWh q * f, f⟩

/-- Weight conversion in `calculateFoodEmissions`: lbs, g and servings are
converted to kg, any other unit passes through unchanged. -/
def foodWeightKg (q : Quantity) : ℚ :=
  if q.unit = "lbs" then q.value * 0.453592
  else if q.unit = "g" then q.value / 1000
  else if q.unit = "servings" then q.value * 0.25
  else q.value

/-- Emission-factor selection in `calculateFoodEmissions`:
`foodEmissions[activityDetails?.foodType] || 2.0`. -/
def foodEmissionFactor (d : ActivityDetails) : ℚ :=
  jsOrNum (d.foodType.bind foodEmissionsTable) 2.0

/-- `calculateFoodEmissions` (models/Activity.js lines 227-260). -/
def calculateFoodEmissions (q : Quantity) (d : ActivityDetails) :
    EmissionResult :=
  let f := foodEmissionFactor d
  ⟨foodWeightKg q * f, f⟩

/-- Weight conversion in `calculateWasteEmissions`: lbs and g are converted
to kg, any other unit passes through unchanged. -/
def wasteWeightKg (q : Quantity) : ℚ :=
  if q.unit = "lbs" then q.value * 0.453592
  else if q.unit = "g" then q.value / 1000
  else q.value

/-- Emission-factor selection in `calculateWasteEmissions`: `general_waste`
(the default for a missing waste type) is keyed by disposal method
(default `landfill`), every other waste type is looked up directly, with
fallback factor 0.5 on both paths. -/
def wasteEmissionFactor (d : ActivityDetails) : ℚ :=
  let wasteType := jsOrStr d.wasteType "general_waste"
  let disposalMethod := jsOrStr d.disposalMethod "landfill"
  if wasteType = "general_waste" then
    jsOrNum (generalWasteTable disposalMethod) 0.5
  else
    jsOrNum (wasteEmissionsTable wasteType) 0.5

/-- `calculateWasteEmissions` (models/Activity.js lines 263-298). -/
def calculateWasteEmissions (q : Quantity) (d : ActivityDetails) :
    EmissionResult :=
  let f := wasteEmissionFactor d
  ⟨wasteWeightKg q * f, f⟩

/-- The `switch (activityType)` dispatch inside `calculateCarbonFootprint`:
the unrounded per-category result, `{0, 0}` for `other` or any
unrecognized category. -/
def dispatchEmissions (activityType : String) (q : Quantity)
    (d : ActivityDetails) : EmissionResult :=
  if activityType = "transport" then calculateTransportEmissions q d
  else if activityType = "energy" then calculateEnergyEmissions q d
  else if activityType = "food" then calculateFoodEmissions q d
  else if activityType = "waste" then calculateWasteEmissions q d
  else ⟨0, 0⟩

/-- `calculateCarbonFootprint` (models/Activity.js lines 130-160): dispatch
by category, then `Math.round(carbonFootprint * 100) / 100`; the emission
factor is returned unrounded. -/
def calculateCarbonFootprint (activityType : String) (q : Quantity)
    (d : ActivityDetails) : EmissionResult :=
  let r := dispatchEmissions activityType q d
  ⟨jsRoundTo 2 r.carbonFootprint, r.emissionFactor⟩

/-!
Persistence model for Activity documents (routes/activities.js and the
mongoose middleware in models/Activity.js).
-/

/-- The fields of an Activity that the create and update routes copy from
the request body and that the carbon calculation reads. -/
structure ActivityFields where
  activityType : String
  quantity : Quantity
  activityDetails : ActivityDetails
deriving DecidableEq

/-- A JS value stored into the numeric `carbonFootprint` path by the
pre-save hook.  `this.carbonFootprint = result.carbonFootprint || result`
assigns the number when it is truthy and otherwise the whole result
object, so the stored value is modelled as this sum. -/
inductive StoredNumber where
  | num : ℚ → StoredNumber
  | resultObject : EmissionResult → StoredNumber
deriving DecidableEq

/-- An Activity document as persisted. -/
structure StoredActivity where
  fields : ActivityFields
  carbonFootprint : StoredNumber
  emissionFactor : ℚ
deriving DecidableEq

/-- The carbonFootprint assignment of the pre-save hook
(models/Activity.js lines 118-126):
`this.carbonFootprint = result.carbonFootprint || result`.
A footprint of 0 is falsy in JS, so the hook then assigns the result
object itself rather than the number. -/
def preSaveCarbonFootprint (r : EmissionResult) : StoredNumber :=
  if r.carbonFootprint = 0 then .resultObject r else .num r.carbonFootprint

/-- Creating an activity (POST /api/activities): the document is built from
the request fields and `save()` runs the pre-save hook, which recomputes
the footprint (`isNew` is true) and assigns
`result.carbonFootprint || result` and `result.emissionFactor || 0`. -/
def createActivity (f : ActivityFields) : StoredActivity :=
  let r := calculateCarbonFootprint f.activityType f.quantity f.activityDetails
  ⟨f, preSaveCarbonFootprint r, r.emissionFactor⟩

/-- Updating an activity (PUT /api/activities/:id): the route calls
`Activity.findOneAndUpdate` with an update document containing only the
request fields.  `findOneAndUpdate` is a query operation, so the
document middleware registered with `activitySchema.pre('save')` does not
run, and no query middleware is registered: `carbonFootprint` and
`emissionFactor` are left exactly as previously stored. -/
def updateActivity (s : StoredActivity) (f : ActivityFields) : StoredActivity :=
  ⟨f, s.carbonFootprint, s.emissionFactor⟩

/-- POST /api/activities/calculate-preview: builds a temporary document
from the request fields and returns `calculateCarbonFootprint()` without
saving. -/
def calculatePreview (f : ActivityFields) : EmissionResult :=
  calculateCarbonFootprint f.activityType f.quantity f.activityDetails

/-!
Trend analysis and goal progress (routes/insights.js).
-/

/-- The object returned by `calculateTrendDirection`; the
`percentageChange` field is absent (`none`) on the fewer-than-two-buckets
early return. -/
structure TrendResult where
  direction : String
  change : ℚ
  percentageChange : Option ℚ
deriving DecidableEq

/-- The two entries of `trendsArray.slice(-2)`, as (previous, current),
when the array has at least two elements. -/
def lastTwo (l : List ℚ) : Option (ℚ × ℚ) :=
  match l.reverse with
  | currVal :: prevVal :: _ => some (prevVal, currVal)
  | _ => none

/-- `calculateTrendDirection` (routes/insights.js lines 796-817), over the
`totalEmissions` values of the chronologically ordered weekly buckets.
Fewer than two buckets returns `{direction: 'stable', change: 0}` with no
`percentageChange` field; otherwise the percentage change of the last two
buckets decides the direction (strictly more than 5 percent in absolute
value is required to leave `stable`), and the returned `change` and
`percentageChange` are the exact values rounded via `toFixed(2)` and
`toFixed(1)`. -/
def calculateTrendDirection (buckets : List ℚ) : TrendResult :=
  match lastTwo buckets with
  | none => ⟨"stable", 0, none⟩
  | some (prevE, currE) =>
    let change := currE - prevE
    let pc := if prevE > 0 then change / prevE * 100 else 0
    let direction :=
      if |pc| > 5 then (if change > 0 then "increasing" else "decreasing")
      else "stable"
    ⟨direction, jsRoundTo 2 change, some (jsRoundTo 1 pc)⟩

/-- The `progressPercentage` of GET /api/insights/weekly-goal-progress
(routes/insights.js lines 236-238): reduction achieved relative to the
baseline, rounded via `toFixed(1)`, and 0 whenever the baseline is not
positive (the division is guarded). -/
def weeklyGoalProgressPercentage (baselineEmissions currentEmissions : ℚ) : ℚ :=
  if baselineEmissions > 0 then
    jsRoundTo 1 ((baselineEmissions - currentEmissions) / baselineEmissions * 100)
  else 0

/-- The `progressPercentage` of GET /api/insights/emission-goal-progress
(routes/insights.js lines 442-444): share of the target consumed, rounded
via `toFixed(1)`, and 0 whenever the target is not positive (the division
is guarded). -/
def emissionGoalProgressPercentage (targetEmissions currentEmissions : ℚ) : ℚ :=
  if targetEmissions > 0 then
    jsRoundTo 1 (currentEmissions / targetEmissions * 100)
  else 0

/-- The `isOnTrack` flag of both goal-progress routes
(routes/insights.js lines 241 and 447). -/
def goalIsOnTrack (targetEmissions currentEmissions : ℚ) : Bool :=
  decide (currentEmissions ≤ targetEmissions)

/-!
Real-time tip generation (generateRealTimeTip and its helpers in
routes/activities.js).  Dates are epoch milliseconds as rationals; the
database reads of the function (the user's current goal, the activities
inside the goal window, the 30-day category average) are supplied as
inputs, exactly the data the awaited queries return.  The free-text
`message` strings are not modelled; the structured fields are.
-/

/-- The user's `currentEmissionGoal` subdocument, as read by
`generateRealTimeTip`. -/
structure EmissionGoal where
  targetEmissions : ℚ
  category : String
  timeframe : String
  startDate : ℚ
  endDate : ℚ
deriving DecidableEq

/-- A tip object without its free-text message:
`{type, priority, category, actionable, suggestions}`. -/
structure Tip where
  type : String
  priority : String
  category : String
  actionable : Bool
  suggestions : List String
deriving DecidableEq

/-- `getAlternativeSuggestions` (routes/activities.js): static per-category
lists with a generic fallback. -/
def getAlternativeSuggestions (activityType : String) : List String :=
  if activityType = "transport" then
    ["Try walking or cycling for short trips",
     "Use public transport instead of driving",
     "Combine multiple errands into one trip",
     "Consider carpooling or ride-sharing"]
  else if activityType = "food" then
    ["Choose more plant-based meals",
     "Buy local, seasonal produce",
     "Reduce portion sizes to minimize waste",
     "Try one meat-free day per week"]
  else if activityType = "energy" then
    ["Use energy-efficient LED lighting",
     "Unplug devices when not in use",
     "Adjust thermostat by 2°C",
     "Switch to renewable energy if available"]
  else if activityType = "waste" then
    ["Recycle whenever possible",
     "Compost organic waste",
     "Buy products with minimal packaging",
     "Repair items instead of replacing them"]
  else
    ["Look for lower-emission alternatives",
     "Consider reducing frequency of this activity",
     "Research eco-friendly options for this activity"]

/-- `getLowEmissionSuggestions` (routes/activities.js). -/
def getLowEmissionSuggestions (activityType : String) : List String :=
  if activityType = "transport" then
    ["Walk", "Bicycle", "Public transport", "Electric vehicle"]
  else if activityType = "food" then
    ["Vegetables", "Fruits", "Local produce", "Plant-based proteins"]
  else if activityType = "energy" then
    ["LED lighting", "Natural light", "Energy-efficient appliances"]
  else if activityType = "waste" then
    ["Recycling", "Composting", "Reusable items", "Minimal packaging"]
  else ["Eco-friendly alternatives"]

/-- `getOptimizationSuggestions` (routes/activities.js): built from the
activity's type and details, with a generic fallback when nothing
applies. -/
def getOptimizationSuggestions (a : ActivityFields) : List String :=
  let s :=
    if a.activityType = "transport" then
      (if a.activityDetails.transportMode = some "car_gasoline" then
        ["Consider hybrid or electric vehicle",
         "Carpool when possible",
         "Plan efficient routes"]
      else []) ++
      (if a.activityDetails.transportMode = some "plane_international" then
        ["Consider direct flights (more efficient)",
         "Offset your flight emissions"]
      else [])
    else if a.activityType = "food" then
      if a.activityDetails.foodType = some "beef" then
        ["Try chicken or fish alternatives",
         "Consider plant-based proteins",
         "Reduce portion size"]
      else []
    else if a.activityType = "energy" then
      ["Switch to renewable energy sources",
       "Improve home insulation",
       "Use smart thermostats"]
    else []
  if s.length > 0 then s else ["Look for more efficient options"]

/-- The `highEmissionThresholds` table of `generateGeneralTip`
(routes/activities.js). -/
def highEmissionThresholdTable (activityType : String) : Option ℚ :=
  if activityType = "transport" then some 10
  else if activityType = "food" then some 5
  else if activityType = "energy" then some 8
  else if activityType = "waste" then some 2
  else none

/-- `generateGeneralTip` (routes/activities.js lines 394-430): tips for
users without an active goal, keyed on the activity's saved footprint. -/
def generateGeneralTip (activityType : String) (carbonFootprint : ℚ) :
    Option Tip :=
  let threshold := jsOrNum (highEmissionThresholdTable activityType) 3
  if carbonFootprint > threshold then
    some ⟨"info", "low", activityType, true,
      getAlternativeSuggestions activityType⟩
  else if carbonFootprint < 1 then
    some ⟨"success", "low", activityType, false, []⟩
  else none

/-- `generateRealTimeTip` (routes/activities.js lines 310-391).
`currentFootprints` are the `carbonFootprint` values of the activities
the function queries (user's activities dated from the goal start,
filtered by the goal category unless it is `all` — the just-saved
activity included); `activityTypeAverage` is the awaited
`getActivityTypeAverage` result.  A single `tip` variable is assigned by
an if / else-if cascade, so at most one tip is produced and the first
matching tier wins. -/
def generateRealTimeTip (currentGoal : Option EmissionGoal) (now : ℚ)
    (currentFootprints : List ℚ) (activityTypeAverage : ℚ)
    (newActivity : ActivityFields) (newFootprint : ℚ) : Option Tip :=
  match currentGoal with
  | none => generateGeneralTip newActivity.activityType newFootprint
  | some goal =>
    if now > goal.endDate then
      generateGeneralTip newActivity.activityType newFootprint
    else
      let currentEmissions := currentFootprints.sum
      let remainingBudget := goal.targetEmissions - currentEmissions
      let daysRemaining : ℤ := ⌈(goal.endDate - now) / (24 * 60 * 60 * 1000)⌉
      if remainingBudget ≤ 0 then
        some ⟨"warning", "high", goal.category, true,
          getAlternativeSuggestions newActivity.activityType⟩
      else if remainingBudget < goal.targetEmissions * 0.1 then
        some ⟨"alert", "medium", goal.category, true,
          getLowEmissionSuggestions newActivity.activityType⟩
      else if newFootprint > activityTypeAverage then
        some ⟨"info", "low", newActivity.activityType, true,
          getOptimizationSuggestions newActivity⟩
      else if currentEmissions ≤ goal.targetEmissions * 0.5 ∧ daysRemaining > 1 then
        some ⟨"success", "low", goal.category, false, []⟩
      else none

/-- Modelled from the claim wording only (for comparison with the code):
rounding to two decimal places with a tie on the third decimal rounded
half away from zero. -/
def roundHalfAwayFromZero2 (x : ℚ) : ℚ :=
  if 0 ≤ x then (⌊x * 100 + 1/2⌋ : ℚ) / 100
  else -((⌊-x * 100 + 1/2⌋ : ℚ) / 100)

/-- The canonical (converted) quantity used by the category dispatched to:
km for transport, kWh for energy, kg for food and waste, and 0 for
`other`/unrecognized categories (whose footprint is the constant 0). -/
def canonicalQuantity (activityType : String) (q : Quantity) : ℚ :=
  if activityType = "transport" then transportDistanceKm q
  else if activityType = "energy" then energyKWh q
  else if activityType = "food" then foodWeightKg q
  else if activityType = "waste" then wasteWeightKg q
  else 0

/-- The emission factor selected by the category dispatched to (0 for
`other`/unrecognized categories). -/
def selectedFactor (activityType : String) (d : ActivityDetails) : ℚ :=
  if activityType = "transport" then transportEmissionFactor d
  else if activityType = "energy" then energyEmissionFactor d
  else if activityType = "food" then foodEmissionFactor d
  else if activityType = "waste" then wasteEmissionFactor d
  else 0

/-!
Theorems for the claims.
-/

/-- Claim C1, code evaluation at the failing input: the code's own
emission-factor table lists bicycle and walking at factor 0, but
`transportEmissions[mode] || 0.21` treats the factor 0 as falsy, so a
10 km bicycle trip is charged the gasoline-car default factor 0.21 and a
footprint of 2.1 kg instead of factor 0 and footprint 0. -/
theorem claim_C1_bicycle_charged_default_factor :
    transportEmissionsTable "bicycle" = some 0 ∧
    transportEmissionsTable "walking" = some 0 ∧
    calculateCarbonFootprint "transport" ⟨10, "km"⟩ (transportDetails "bicycle") =
      ⟨21/10, 21/100⟩ ∧
    calculateCarbonFootprint "transport" ⟨10, "km"⟩ (transportDetails "walking") =
      ⟨21/10, 21/100⟩ := by
  refine ⟨by simp +decide [transportEmissionsTable], by simp +decide [transportEmissionsTable], ?_, ?_⟩ <;>
  · simp +decide only [calculateCarbonFootprint, dispatchEmissions,
      calculateTransportEmissions, transportDistanceKm, transportEmissionFactor,
      transportEmissionsTable, transportDetails, jsOrNum, jsRoundTo, jsRound,
      Option.bind]
    norm_num

/-- Claim C2, code evaluation at the failing input: an activity created as
a 100 km gasoline-car trip stores footprint 21; updating it through the
PUT route to a 10 km trip leaves the stored footprint at 21, because
`findOneAndUpdate` does not run the `pre('save')` recomputation hook,
while recomputing on the updated fields would give 2.1. -/
theorem claim_C2_update_keeps_stale_footprint :
    (updateActivity
        (createActivity ⟨"transport", ⟨100, "km"⟩, transportDetails "car_gasoline"⟩)
        ⟨"transport", ⟨10, "km"⟩, transportDetails "car_gasoline"⟩).carbonFootprint =
      .num 21 ∧
    (calculateCarbonFootprint "transport" ⟨10, "km"⟩
        (transportDetails "car_gasoline")).carbonFootprint = 21/10 := by
  constructor <;>
  · simp +decide only [updateActivity, createActivity, preSaveCarbonFootprint,
      calculateCarbonFootprint, dispatchEmissions, calculateTransportEmissions,
      transportDistanceKm, transportEmissionFactor, transportEmissionsTable,
      transportDetails, jsOrNum, jsRoundTo, jsRound, Option.bind]
    norm_num

/-- The dispatch of `calculateCarbonFootprint` always yields the canonical
quantity times the selected factor as its unrounded footprint. -/
theorem dispatchEmissions_eq (activityType : String) (q : Quantity)
    (d : ActivityDetails) :
    dispatchEmissions activityType q d =
      ⟨canonicalQuantity activityType q * selectedFactor activityType d,
        selectedFactor activityType d⟩ := by
  simp only [dispatchEmissions, canonicalQuantity, selectedFactor,
    calculateTransportEmissions, calculateEnergyEmissions,
    calculateFoodEmissions, calculateWasteEmissions]
  split_ifs <;> simp

/-- Claim C3 (amended): the returned carbonFootprint is the canonical
quantity times the selected emission factor rounded to two decimals, with
a tie on the third decimal rounded half-up, toward positive infinity
(`Math.round`), which is away from zero for positive values but toward
zero for negative values: the rounded footprint is
`⌊raw × 100 + 1/2⌋ / 100`, and for example a raw product of 0.125 rounds
to 0.13 while -0.125 rounds to -0.12, not -0.13. -/
theorem claim_C3_two_decimal_rounding (activityType : String) (q : Quantity)
    (d : ActivityDetails) :
    calculateCarbonFootprint activityType q d =
      ⟨(⌊canonicalQuantity activityType q * selectedFactor activityType d * 100
          + 1/2⌋ : ℚ) / 100,
        selectedFactor activityType d⟩ ∧
    jsRoundTo 2 (1/8) = 13/100 ∧
    jsRoundTo 2 (-(1/8)) = -(12/100) := by
  refine ⟨?_, by norm_num [jsRoundTo, jsRound], by norm_num [jsRoundTo, jsRound]⟩
  rw [calculateCarbonFootprint, dispatchEmissions_eq]
  norm_num [jsRoundTo, jsRound]

/-- Claim C3 counterexample: the claim's half-away-from-zero tie rule does
not hold on the code; at a 1.25 kg recycling waste activity the raw
product is -0.125 and the code returns -0.12, not the half-away-from-zero
value -0.13. -/
theorem claim_C3_counterexample :
    (calculateCarbonFootprint "waste" ⟨5/4, "kg"⟩
        (wasteDetails "recycling")).carbonFootprint ≠
      roundHalfAwayFromZero2
        (wasteWeightKg ⟨5/4, "kg"⟩ * wasteEmissionFactor (wasteDetails "recycling")) := by
  simp +decide only [calculateCarbonFootprint, dispatchEmissions,
    calculateWasteEmissions, wasteWeightKg, wasteEmissionFactor,
    wasteEmissionsTable, generalWasteTable, wasteDetails, jsOrNum, jsOrStr,
    jsRoundTo, jsRound, roundHalfAwayFromZero2]
  norm_num

/-- Claim C5: any quantity unit outside the units explicitly converted for
the dispatched category (miles and m for transport distance, MWh and BTU
for energy, lbs and g — plus servings for food only — for weight) passes
through as the identity: the raw value itself is multiplied by the
selected factor, and no error is raised. -/
theorem claim_C5_unrecognized_unit_identity (q : Quantity) (d : ActivityDetails) :
    (q.unit ≠ "miles" ∧ q.unit ≠ "m" →
      calculateTransportEmissions q d =
        ⟨q.value * transportEmissionFactor d, transportEmissionFactor d⟩) ∧
    (q.unit ≠ "MWh" ∧ q.unit ≠ "BTU" →
      calculateEnergyEmissions q d =
        ⟨q.value * energyEmissionFactor d, energyEmissionFactor d⟩) ∧
    (q.unit ≠ "lbs" ∧ q.unit ≠ "g" ∧ q.unit ≠ "servings" →
      calculateFoodEmissions q d =
        ⟨q.value * foodEmissionFactor d, foodEmissionFactor d⟩) ∧
    (q.unit ≠ "lbs" ∧ q.unit ≠ "g" →
      calculateWasteEmissions q d =
        ⟨q.value * wasteEmissionFactor d, wasteEmissionFactor d⟩) := by
  refine ⟨fun h => ?_, fun h => ?_, fun h => ?_, fun h => ?_⟩
  · simp only [calculateTransportEmissions, transportDistanceKm,
      if_neg h.1, if_neg h.2]
  · simp only [calculateEnergyEmissions, energyKWh, if_neg h.1, if_neg h.2]
  · simp only [calculateFoodEmissions, foodWeightKg, if_neg h.1, if_neg h.2.1,
      if_neg h.2.2]
  · simp only [calculateWasteEmissions, wasteWeightKg, if_neg h.1, if_neg h.2]

/-- Claim C5 witness: a food activity recorded in km falls through the
converter unchanged and multiplies the raw value by the default food
factor 2. -/
theorem claim_C5_unrecognized_unit_identity_witness :
    calculateFoodEmissions ⟨7, "km"⟩ noDetails = ⟨14, 2⟩ := by
  have h := (claim_C5_unrecognized_unit_identity ⟨7, "km"⟩ noDetails).2.2.1
    ⟨by decide, by decide, by decide⟩
  rw [h]
  norm_num [foodEmissionFactor, noDetails, jsOrNum, Option.bind]

/-- Claim C6: with fewer than two buckets the trend is stable with change
0 (and no percentage-change field); otherwise, over the two most recent
buckets and with percentageChange the exact value
`(curr - prev) / prev * 100` (0 when prev = 0), the direction is stable
exactly when its absolute value is at most 5 (the boundary 5 included)
and otherwise increasing or decreasing by the sign of the absolute
change; the returned change and percentageChange fields carry the exact
values rounded to 2 and 1 decimals. -/
theorem claim_C6_trend_direction (buckets : List ℚ) :
    (buckets.length < 2 → calculateTrendDirection buckets = ⟨"stable", 0, none⟩) ∧
    (∀ rest prevE currE, buckets.reverse = currE :: prevE :: rest → 0 ≤ prevE →
      calculateTrendDirection buckets =
        ⟨(if |if prevE = 0 then 0 else (currE - prevE) / prevE * 100| ≤ 5
            then "stable"
          else if prevE < currE then "increasing" else "decreasing"),
          jsRoundTo 2 (currE - prevE),
          some (jsRoundTo 1
            (if prevE = 0 then 0 else (currE - prevE) / prevE * 100))⟩) := by
  constructor
  · intro hlen
    have hrl : buckets.reverse.length < 2 := by simpa using hlen
    rcases hx : buckets.reverse with _ | ⟨a, _ | ⟨b, t⟩⟩
    · simp [calculateTrendDirection, lastTwo, hx]
    · simp [calculateTrendDirection, lastTwo, hx]
    · rw [hx] at hrl
      simp at hrl
      omega
  · intro rest prevE currE hrev hnn
    have hl : lastTwo buckets = some (prevE, currE) := by
      simp [lastTwo, hrev]
    have hpc : (if prevE > 0 then (currE - prevE) / prevE * 100 else 0) =
        (if prevE = 0 then 0 else (currE - prevE) / prevE * 100) := by
      rcases eq_or_lt_of_le hnn with h0 | h0
      · simp [← h0]
      · rw [if_pos h0, if_neg (ne_of_gt h0)]
    simp only [calculateTrendDirection, hl, hpc]
    refine congrArg (fun dir => TrendResult.mk dir _ _) ?_
    by_cases habs : |if prevE = 0 then 0 else (currE - prevE) / prevE * 100| ≤ 5
    · rw [if_neg (not_lt.mpr habs), if_pos habs]
    · rw [if_pos (not_le.mp habs), if_neg habs]
      simp only [gt_iff_lt, sub_pos]

/-- Claim C6 witness: the spec's boundary example, previous bucket 20 and
current bucket 21, has percentage change exactly 5 and is classified
stable. -/
theorem claim_C6_trend_direction_witness :
    calculateTrendDirection [20, 21] = ⟨"stable", 1, some 5⟩ := by
  have h := (claim_C6_trend_direction [20, 21]).2 [] 20 21 (by simp) (by norm_num)
  rw [h]
  norm_num [jsRoundTo, jsRound]

/-- Claim C8 (amended): for a fixed emission goal with positive target the
progress percentage is `current / target * 100` rounded to one decimal
(ties toward positive infinity, via `toFixed(1)`), and isOnTrack holds
exactly when current ≤ target; in particular target 80 and current 90
yield progress 112.5 (exact, unaffected by the rounding) and
isOnTrack = false. -/
theorem claim_C8_emission_goal_progress (targetEmissions currentEmissions : ℚ)
    (h : 0 < targetEmissions) :
    emissionGoalProgressPercentage targetEmissions currentEmissions =
      jsRoundTo 1 (currentEmissions / targetEmissions * 100) ∧
    (goalIsOnTrack targetEmissions currentEmissions = true ↔
      currentEmissions ≤ targetEmissions) ∧
    emissionGoalProgressPercentage 80 90 = 112.5 ∧
    goalIsOnTrack 80 90 = false := by
  refine ⟨by rw [emissionGoalProgressPercentage, if_pos h], by simp [goalIsOnTrack],
    ?_, ?_⟩
  · norm_num [emissionGoalProgressPercentage, jsRoundTo, jsRound]
  · simp only [goalIsOnTrack, decide_eq_false_iff_not]
    norm_num

/-- Claim C8 witness: the theorem applied at the spec's example, target 80
and current 90. -/
theorem claim_C8_emission_goal_progress_witness :
    emissionGoalProgressPercentage 80 90 = 112.5 ∧ goalIsOnTrack 80 90 = false :=
  ⟨(claim_C8_emission_goal_progress 80 90 (by norm_num)).2.2.1,
    (claim_C8_emission_goal_progress 80 90 (by norm_num)).2.2.2⟩

/-- Claim C8 counterexample: the claim's exact equality
`progress = current / target * 100` fails on the code because of the
one-decimal rounding: with target 3 and current 1 the code returns 33.3,
not 100/3. -/
theorem claim_C8_counterexample :
    emissionGoalProgressPercentage 3 1 ≠ 1 / 3 * 100 := by
  norm_num [emissionGoalProgressPercentage, jsRoundTo, jsRound]

/-- Claim C9: the per-activity tip generator assigns at most one tip
through an ordered if / else-if cascade, and whenever the user's goal is
active and its remaining budget (target minus emissions since the goal
start) is at most 0, the produced tip is the budget-exceeded warning —
the first tier wins regardless of any lower tier's condition. -/
theorem claim_C9_budget_exceeded_warning (goal : EmissionGoal) (now : ℚ)
    (currentFootprints : List ℚ) (activityTypeAverage : ℚ)
    (newActivity : ActivityFields) (newFootprint : ℚ)
    (hactive : ¬ now > goal.endDate)
    (hbudget : goal.targetEmissions - currentFootprints.sum ≤ 0) :
    generateRealTimeTip (some goal) now currentFootprints activityTypeAverage
        newActivity newFootprint =
      some ⟨"warning", "high", goal.category, true,
        getAlternativeSuggestions newActivity.activityType⟩ := by
  simp only [generateRealTimeTip, if_neg hactive, if_pos hbudget]

/-- Claim C9 witness: an active weekly goal with target 10 and 15 kg
already emitted (remaining budget -5) produces the warning tip even
though the new activity's footprint 100 also exceeds the category average
1, so a lower tier's condition holds simultaneously. -/
theorem claim_C9_budget_exceeded_warning_witness :
    generateRealTimeTip (some ⟨10, "all", "weekly", 0, 86400000⟩) 0 [15] 1
        ⟨"transport", ⟨10, "km"⟩, transportDetails "car_gasoline"⟩ 100 =
      some ⟨"warning", "high", "all", true, getAlternativeSuggestions "transport"⟩ :=
  claim_C9_budget_exceeded_warning ⟨10, "all", "weekly", 0, 86400000⟩ 0 [15] 1
    ⟨"transport", ⟨10, "km"⟩, transportDetails "car_gasoline"⟩ 100
    (by norm_num) (by norm_num)

/-- Claim C4: waste of 5 kg with wasteType `recycling` yields footprint
-0.50 and factor -0.1 (a negative footprint is a valid calculation
result), and any non-`general_waste`, non-empty wasteType is looked up
directly in the table (recycling -0.1, compost 0.1, hazardous 2.0,
anything else 0.5). -/
theorem claim_C4_waste_recycling :
    calculateCarbonFootprint "waste" ⟨5, "kg"⟩ (wasteDetails "recycling") =
      ⟨-(1/2), -(1/10)⟩ ∧
    (calculateCarbonFootprint "waste" ⟨5, "kg"⟩
        (wasteDetails "recycling")).carbonFootprint < 0 ∧
    wasteEmissionsTable "recycling" = some (-(1/10)) ∧
    wasteEmissionsTable "compost" = some (1/10) ∧
    wasteEmissionsTable "hazardous" = some 2 ∧
    (∀ q d wt, d.wasteType = some wt → wt ≠ "general_waste" → wt ≠ "" →
      (calculateWasteEmissions q d).emissionFactor =
        jsOrNum (wasteEmissionsTable wt) 0.5) := by
  have heval : calculateCarbonFootprint "waste" ⟨5, "kg"⟩ (wasteDetails "recycling") =
      ⟨-(1/2), -(1/10)⟩ := by
    simp +decide only [calculateCarbonFootprint, dispatchEmissions,
      calculateWasteEmissions, wasteWeightKg, wasteEmissionFactor,
      wasteEmissionsTable, generalWasteTable, wasteDetails, jsOrNum, jsOrStr,
      jsRoundTo, jsRound]
    norm_num
  refine ⟨heval, by rw [heval]; norm_num,
    by simp +decide only [wasteEmissionsTable]; norm_num,
    by simp +decide only [wasteEmissionsTable]; norm_num,
    by simp +decide only [wasteEmissionsTable]; norm_num,
    fun q d wt hwt hgen hne => ?_⟩
  simp only [calculateWasteEmissions, wasteEmissionFactor, jsOrStr, hwt,
    if_neg hne, if_neg hgen]

/-- Claim C4 witness: the direct-lookup branch applied at a concrete
compost activity. -/
theorem claim_C4_waste_recycling_witness :
    (calculateWasteEmissions ⟨3, "kg"⟩ (wasteDetails "compost")).emissionFactor =
      1/10 := by
  have h := claim_C4_waste_recycling.2.2.2.2.2 ⟨3, "kg"⟩ (wasteDetails "compost")
    "compost" rfl (by decide) (by decide)
  rw [h]
  simp +decide only [wasteEmissionsTable, jsOrNum]
  norm_num

/-- Claim C7: both goal-progress computations guard their division, so a
zero baseline (weekly reduction goal) or zero target (fixed emission
goal) yields progress percentage 0 for every current-emissions value,
with no division performed. -/
theorem claim_C7_zero_denominator_guard (currentEmissions : ℚ) :
    weeklyGoalProgressPercentage 0 currentEmissions = 0 ∧
    emissionGoalProgressPercentage 0 currentEmissions = 0 := by
  constructor <;>
    simp [weeklyGoalProgressPercentage, emissionGoalProgressPercentage]

/-- Claim C10, code evaluation at the failing input: for an `other`
activity the preview route returns the number 0, but the create path's
pre-save hook evaluates `result.carbonFootprint || result` and, 0 being
falsy, assigns the whole result object to the stored `carbonFootprint`
instead of the number 0, so preview and persisted computation diverge at
every zero-footprint activity. -/
theorem claim_C10_preview_create_divergence_at_zero :
    calculatePreview ⟨"other", ⟨1, "items"⟩, noDetails⟩ = ⟨0, 0⟩ ∧
    (createActivity ⟨"other", ⟨1, "items"⟩, noDetails⟩).carbonFootprint =
      .resultObject ⟨0, 0⟩ ∧
    (∀ f : ActivityFields, (calculatePreview f).carbonFootprint ≠ 0 →
      (createActivity f).carbonFootprint = .num (calculatePreview f).carbonFootprint) := by
  have heval : calculatePreview ⟨"other", ⟨1, "items"⟩, noDetails⟩ = ⟨0, 0⟩ := by
    simp +decide only [calculatePreview, calculateCarbonFootprint,
      dispatchEmissions, jsRoundTo, jsRound]
    norm_num
  refine ⟨heval, ?_, fun f hf => ?_⟩
  · simp only [createActivity, preSaveCarbonFootprint]
    rw [show calculateCarbonFootprint "other" ⟨1, "items"⟩ noDetails = ⟨0, 0⟩ from heval]
    simp
  · simp only [createActivity, preSaveCarbonFootprint, calculatePreview] at hf ⊢
    rw [if_neg hf]

/-- Claim C10 witness for the nonzero-agreement conjunct, applied at a
concrete beef activity. -/
theorem claim_C10_preview_create_divergence_at_zero_witness :
    (createActivity ⟨"food", ⟨2, "kg"⟩, foodDetails "beef"⟩).carbonFootprint =
      .num (calculatePreview ⟨"food", ⟨2, "kg"⟩, foodDetails "beef"⟩).carbonFootprint := by
  refine claim_C10_preview_create_divergence_at_zero.2.2 _ ?_
  simp +decide only [calculatePreview, calculateCarbonFootprint, dispatchEmissions,
    calculateFoodEmissions, foodWeightKg, foodEmissionFactor, foodEmissionsTable,
    foodDetails, jsOrNum, jsRoundTo, jsRound, Option.bind]
  norm_num

end EcoTracker
